import Mathlib

/-!
Verification of the lunalist update service (`src/server/app.py`), a small
Flask microservice that caches the latest application version published in a
GitHub-hosted `pubspec.yaml` and compares caller-supplied versions against it.

The Python source is shallowly embedded below:

* pure helpers (`parse_version`, `_parse_pubspec`) become Lean functions on
  `String`, with Python exceptions modelled as `Except String`;
* Python's string primitives (`strip`, `split`, `isdigit`, `int`, `in`) are
  modelled by structural functions over `String.data`, over ASCII text:
  `str.strip` removes the characters of `Char.isWhitespace` and `str.isdigit`
  accepts exactly the ASCII decimal digits (the service's version strings and
  query parameters are ASCII);
* the mutable module-level cache dictionary becomes an explicit `Cache`
  record threaded through `refreshCache`;
* `time.time()` becomes an explicit `now : Nat` argument (time units);
* the network call inside `_fetch_pubspec_from_github` becomes an explicit
  `HttpResponse` argument, and the fetch outcome observed by `_refresh_cache`
  becomes an explicit `Except String Fetched` argument;
* the YAML layer of `_parse_pubspec` (`yaml.safe_load` followed by
  `str(data.get("version", "")).strip()`) is modelled by passing the
  manifest's extracted `version` field directly (`none` = field absent);
* the base64/UTF-8 envelope decoding in the fetcher is modelled by carrying
  the payload's `content` field as its decoded text (the decoding itself is
  not the subject of any claim); an empty/absent field is falsy exactly as
  in Python.
-/

namespace LunalistUpdate

/-- Decidable equality for `Except`, used to evaluate the embedded
fallible operations on concrete inputs. -/
instance {ε α : Type} [DecidableEq ε] [DecidableEq α] :
    DecidableEq (Except ε α) := fun x y =>
  match x, y with
  | .ok a, .ok b =>
    if h : a = b then isTrue (by rw [h])
    else isFalse (by intro he; cases he; exact h rfl)
  | .error a, .error b =>
    if h : a = b then isTrue (by rw [h])
    else isFalse (by intro he; cases he; exact h rfl)
  | .ok _, .error _ => isFalse (by intro h; cases h)
  | .error _, .ok _ => isFalse (by intro h; cases h)

/-! ## String primitives (Python semantics, structural over `List Char`) -/

/-- Models Python `str.strip()` on a character list: drop whitespace from
both ends. -/
def stripChars (l : List Char) : List Char :=
  ((l.dropWhile Char.isWhitespace).reverse.dropWhile Char.isWhitespace).reverse

/-- Models Python `str.strip()`. -/
def strip (s : String) : String :=
  ⟨stripChars s.data⟩

/-- Models Python `not s` / `if s` falsiness for a string: true when empty. -/
def strEmpty (s : String) : Bool :=
  s.data.isEmpty

/-- Python truthiness for an optional string: `None` and `""` are falsy. -/
def truthyStr : Option String → Bool
  | none => false
  | some s => !strEmpty s

/-- Models Python `c in s` for a single character. -/
def containsChar (s : String) (c : Char) : Bool :=
  s.data.contains c

/-- Accumulator pass for `splitOnChar`: cut the list at every occurrence of
`c`, keeping empty pieces, exactly like Python `str.split(c)`. -/
def splitOnCharAux (c : Char) : List Char → List Char → List (List Char)
  | [], acc => [acc.reverse]
  | x :: xs, acc =>
    if x == c then acc.reverse :: splitOnCharAux c xs []
    else splitOnCharAux c xs (x :: acc)

/-- Models Python `s.split(c)` for a one-character separator. -/
def splitOnChar (c : Char) (s : String) : List String :=
  (splitOnCharAux c s.data []).map fun l => ⟨l⟩

/-- Accumulator pass for `breakFirst`: return the characters before the
first occurrence of `c` and the characters after it. -/
def breakFirstAux (c : Char) : List Char → List Char → List Char × List Char
  | [], acc => (acc.reverse, [])
  | x :: xs, acc =>
    if x == c then (acc.reverse, xs) else breakFirstAux c xs (x :: acc)

/-- Models Python `s.split(c, 1)` for a string containing `c`: the piece
before the first occurrence and the piece after it (when `c` is absent the
whole string is the first piece, matching Python's one-element list). -/
def breakFirst (c : Char) (s : String) : String × String :=
  let p := breakFirstAux c s.data []
  (⟨p.1⟩, ⟨p.2⟩)

/-- Models Python `str.isdigit` over ASCII: nonempty and all characters are
decimal digits. -/
def isDigits (s : String) : Bool :=
  !s.data.isEmpty && s.data.all Char.isDigit

/-- Models Python `int(s)` on a decimal-digit string (`0` on other input;
only ever applied under an `isDigits` guard, as in the source). -/
def digitsToNat (s : String) : Nat :=
  s.data.foldl (fun n c => n * 10 + (c.toNat - 48)) 0

/-- Models Python `s[:n]`. -/
def takeChars (n : Nat) (s : String) : String :=
  ⟨s.data.take n⟩

/-! ## The version parsers and the comparator -/

/-- The 4-tuple `(major, minor, patch, build)` returned by the comparator's
`parse_version` (spec: `VersionTuple`). -/
structure VT where
  major : Nat
  minor : Nat
  patch : Nat
  build : Nat
deriving Repr, DecidableEq

/-- Embeds `check.parse_version` (src/server/app.py lines 183-200):
strip, split at the first `+` (stripped build part, digits → build else 0),
then require exactly 3 dot-separated components that are all digits after
stripping each. `ValueError` becomes `Except.error` with the source's
message. -/
def parse_version (v0 : String) : Except String VT :=
  let v := strip v0
  let pb :=
    if containsChar v '+' then
      let vb := breakFirst '+' v
      let bp := strip vb.2
      (vb.1, if isDigits bp then digitsToNat bp else 0)
    else (v, 0)
  let parts := (splitOnChar '.' pb.1).map strip
  if parts.length == 3 && parts.all isDigits then
    .ok ⟨digitsToNat (parts.getD 0 ""), digitsToNat (parts.getD 1 ""),
         digitsToNat (parts.getD 2 ""), pb.2⟩
  else
    .error ("Invalid version format: " ++ v ++ ". Expected e.g. 1.16.1+3")

/-- Embeds `_parse_pubspec` (src/server/app.py lines 47-67). The YAML layer
is modelled by taking the manifest's `version` field directly: `versionField
= none` stands for a document without a `version` key (Python's default `""`
yields the same result). Returns `(version_str, build?, raw)`. -/
def parsePubspec (versionField : Option String) :
    Except String (String × Option Nat × String) :=
  let raw := strip (versionField.getD "")
  if strEmpty raw then
    .error "No 'version' field found in pubspec.yaml"
  else if containsChar raw '+' then
    let vb := breakFirst '+' raw
    let v := strip vb.1
    let b := strip vb.2
    .ok (v, if isDigits b then some (digitsToNat b) else none, raw)
  else
    .ok (raw, none, raw)

/-- Strict lexicographic greater-than on the `(major, minor, patch)` prefix,
as computed by Python's `lat[:3] > cur[:3]` tuple comparison. -/
def lex3Gt (a b : VT) : Bool :=
  Nat.blt b.major a.major ||
    (a.major == b.major &&
      (Nat.blt b.minor a.minor ||
        (a.minor == b.minor && Nat.blt b.patch a.patch)))

/-- Embeds the inline comparison of the `/check` handler (src/server/app.py
lines 206-211): `update_available` is true when the latest tuple exceeds the
current tuple on `(major, minor, patch)` lexicographically, false when it is
below, and decided by the numeric build otherwise. -/
def updateAvailable (lat cur : VT) : Bool :=
  if lex3Gt lat cur then true
  else if lex3Gt cur lat then false
  else Nat.blt cur.build lat.build

/-- Stated from the spec's words (section 4.2 `compare`): order the two
tuples by `(major, minor, patch)` lexicographically first and, when those
three agree, by the numeric `build` field (higher build = greater). Used to
check the code's inline comparison against the specified total order. -/
def compareVT (a b : VT) : Ordering :=
  match compare a.major b.major with
  | .eq =>
    match compare a.minor b.minor with
    | .eq =>
      match compare a.patch b.patch with
      | .eq => compare a.build b.build
      | o => o
    | o => o
  | o => o

/-! ## The cache, the fetcher and the HTTP handlers -/

/-- The module-level `_cache` dictionary (src/server/app.py lines 20-29),
with timestamps as `Nat` time units. `expires_at` starts at `0.0`; every
other field starts at `None`. -/
structure Cache where
  expires_at : Nat
  version : Option String
  build : Option Nat
  raw_version : Option String
  source : Option String
  etag : Option String
  last_checked_at : Option Nat
  error : Option String
deriving Repr, DecidableEq

/-- The initial cache state (all absent, `expires_at = 0`). -/
def initCache : Cache :=
  { expires_at := 0, version := none, build := none, raw_version := none,
    source := none, etag := none, last_checked_at := none, error := none }

/-- The dictionary returned by `_fetch_pubspec_from_github` as consumed by
`_refresh_cache`: `unchanged`, the etag to store, and the fetched manifest
represented by its extracted `version` field (see module comment). -/
structure Fetched where
  unchanged : Bool
  etag : Option String
  versionField : Option String
deriving Repr, DecidableEq

/-- Embeds `_refresh_cache` (src/server/app.py lines 108-134). `now` is the
`time.time()` reading, `ttl` is `CACHE_TTL_SECONDS`, and `fetched` is the
outcome of `_fetch_pubspec_from_github()`: `Except.error` when the fetch
raised (`RuntimeError` from configuration, HTTP status or payload shape).
A `ValueError` raised later by `_parse_pubspec` lands in the same `except`
block; both failure paths set `error`, `last_checked_at` and the shortened
`expires_at` backoff and leave every other field as the `try` block left
it. -/
def refreshCache (ttl : Nat) (c : Cache) (now : Nat) (force : Bool)
    (fetched : Except String Fetched) : Cache :=
  if !force && Nat.blt now c.expires_at && truthyStr c.version then c
  else
    match fetched with
    | .error e =>
      { c with error := some e, last_checked_at := some now,
               expires_at := now + Nat.min ttl 30 }
    | .ok f =>
      let c1 := { c with last_checked_at := some now, error := none }
      if f.unchanged then
        { c1 with source := some "github(etag-cache)", expires_at := now + ttl }
      else
        match parsePubspec f.versionField with
        | .error e =>
          { c1 with error := some e, expires_at := now + Nat.min ttl 30 }
        | .ok vbr =>
          { c1 with version := some vbr.1, build := vbr.2.1,
                    raw_version := some vbr.2.2, etag := f.etag,
                    source := some "github", expires_at := now + ttl }

/-- Whether a `_refresh_cache` call reaches the upstream fetch: exactly the
negation of the cache-hit guard on line 110 of the source. -/
def refreshFetches (c : Cache) (now : Nat) (force : Bool) : Bool :=
  !(!force && Nat.blt now c.expires_at && truthyStr c.version)

/-- The upstream HTTP response observed by `_fetch_pubspec_from_github`:
status code, `ETag` response header, the JSON payload's `content` (carried
as its decoded text, see module comment) and `encoding` fields, and the raw
body text used in error messages. -/
structure HttpResponse where
  status : Nat
  etagHeader : Option String
  content : Option String
  encoding : Option String
  text : String
deriving Repr, DecidableEq

/-- Embeds `_fetch_pubspec_from_github` (src/server/app.py lines 69-106).
`cacheVersion` and `etag` are the `_cache` reads on lines 76 and 80;
`owner`, `repo`, `path` are the GitHub configuration values. The returned
`Fetched.versionField` carries the fetched manifest's `version` field
(the YAML extraction otherwise done inside `_parse_pubspec`). -/
def fetchPubspec (owner repo path : String) (cacheVersion : Option String)
    (etag : Option String) (r : HttpResponse) : Except String Fetched :=
  if strEmpty owner || strEmpty repo || strEmpty path then
    .error "Missing GitHub configuration (owner/repo/path)."
  else if r.status == 304 && truthyStr cacheVersion then
    .ok ⟨true, etag, none⟩
  else if r.status != 200 then
    .error ("GitHub API error: " ++ toString r.status ++ " - " ++
      takeChars 300 r.text)
  else if r.encoding != some "base64" || !truthyStr r.content then
    .error "Unexpected GitHub contents response (missing base64 content)."
  else
    .ok ⟨false, r.etagHeader, some (r.content.getD "")⟩

/-- The JSON body and status of a `/version` response (src/server/app.py
lines 140-161): either the 502 `ok:false` shape or the 200 `ok:true`
shape. -/
inductive VersionResp where
  | err (error : String) (last_checked_at : Option Nat)
  | ok (version : String) (build : Option Nat) (raw : Option String)
       (source : Option String) (last_checked_at : Option Nat)
       (cache_ttl_seconds : Nat) (error : Option String)
deriving Repr, DecidableEq

/-- HTTP status of a `/version` response. -/
def VersionResp.statusCode : VersionResp → Nat
  | .err _ _ => 502
  | .ok _ _ _ _ _ _ _ => 200

/-- Models `_cache.get("error") or "unknown"`. -/
def errorOrUnknown : Option String → String
  | none => "unknown"
  | some e => if strEmpty e then "unknown" else e

/-- Embeds the body of the `/version` handler after its `_refresh_cache`
call (src/server/app.py lines 145-161), reading the post-refresh cache
`c`. -/
def versionEndpoint (ttl : Nat) (c : Cache) : VersionResp :=
  if !truthyStr c.version then
    .err (errorOrUnknown c.error) c.last_checked_at
  else
    .ok (c.version.getD "") c.build c.raw_version c.source c.last_checked_at
        ttl c.error

/-- The full `/version` handler (lines 140-161): refresh with the given
`force` query flag, then render the cache. Returns the response together
with the post-refresh cache. -/
def versionHandler (ttl : Nat) (now : Nat) (fetched : Except String Fetched)
    (force : Bool) (c : Cache) : VersionResp × Cache :=
  let c1 := refreshCache ttl c now force fetched
  (versionEndpoint ttl c1, c1)

/-- The JSON body and status of a `/check` response (src/server/app.py
lines 163-221): 400 for a missing `current` or a `ValueError` from
`parse_version`, 502 when no raw version is cached, 200 otherwise. -/
inductive CheckResp where
  | badRequest (error : String)
  | noLatest (error : String)
  | ok (update_available : Bool) (current : String) (latest : String)
deriving Repr, DecidableEq

/-- HTTP status of a `/check` response. -/
def CheckResp.statusCode : CheckResp → Nat
  | .badRequest _ => 400
  | .noLatest _ => 502
  | .ok _ _ _ => 200

/-- Embeds the body of the `/check` handler after its `_refresh_cache`
call (src/server/app.py lines 174-221), reading the post-refresh cache:
`current` is the already-stripped, nonempty query value. Python evaluates
`parse_version(current)` first, so its `ValueError` message wins when both
strings are invalid. -/
def checkEndpoint (current : String) (c : Cache) : CheckResp :=
  if !truthyStr c.raw_version then
    .noLatest (errorOrUnknown c.error)
  else
    let latest_raw := c.raw_version.getD ""
    match parse_version current, parse_version latest_raw with
    | .error e, _ => .badRequest e
    | .ok _, .error e => .badRequest e
    | .ok cur, .ok lat => .ok (updateAvailable lat cur) current latest_raw

/-- The full `/check` handler (lines 163-221): strip the `current` query
parameter, reject it with a 400 when empty or absent before any refresh,
otherwise refresh with `force=False` and compare. Returns the response with
the post-refresh cache. -/
def checkHandler (ttl : Nat) (now : Nat) (fetched : Except String Fetched)
    (currentParam : Option String) (c : Cache) : CheckResp × Cache :=
  let current := strip (currentParam.getD "")
  if strEmpty current then
    (.badRequest "Missing 'current' query param", c)
  else
    let c1 := refreshCache ttl c now false fetched
    (checkEndpoint current c1, c1)

/-! ## Claim-side definitions -/

/-- Stated from the words of claim C2: strip surrounding whitespace, split
at the first `+`, set `build` to the value of the build part when it is
entirely decimal digits (else 0), and require the version part to split on
`.` into exactly 3 components each entirely decimal digits — with no
further stripping of the build part or of the components. Compared against
the source's `parse_version`. -/
def claimC2Parse (v0 : String) : Except String VT :=
  let v := strip v0
  let pb :=
    if containsChar v '+' then
      let vb := breakFirst '+' v
      (vb.1, if isDigits vb.2 then digitsToNat vb.2 else 0)
    else (v, 0)
  let parts := splitOnChar '.' pb.1
  if parts.length == 3 && parts.all isDigits then
    .ok ⟨digitsToNat (parts.getD 0 ""), digitsToNat (parts.getD 1 ""),
         digitsToNat (parts.getD 2 ""), pb.2⟩
  else
    .error ("Invalid version format: " ++ v ++ ". Expected e.g. 1.16.1+3")

/-- The amended description of the comparator's parser: as claim C2, except
that the build part is whitespace-stripped before the all-digits test and
each dot-separated component is whitespace-stripped before its all-digits
test. Written independently of `parse_version` (optional build part,
propositional 3-component condition) and proved equal to it. -/
def claimC2ParseAmended (v0 : String) : Except String VT :=
  let v := strip v0
  let buildPart : Option String :=
    if containsChar v '+' then some (strip (breakFirst '+' v).2) else none
  let build : Nat :=
    match buildPart with
    | some b => if isDigits b then digitsToNat b else 0
    | none => 0
  let versionPart : String :=
    if containsChar v '+' then (breakFirst '+' v).1 else v
  let comps := (splitOnChar '.' versionPart).map strip
  if comps.length = 3 ∧ ∀ p ∈ comps, isDigits p then
    .ok ⟨digitsToNat (comps.getD 0 ""), digitsToNat (comps.getD 1 ""),
         digitsToNat (comps.getD 2 ""), build⟩
  else
    .error ("Invalid version format: " ++ v ++ ". Expected e.g. 1.16.1+3")

/-! ## Claims -/

/-- Claim C2, counterexample: on the input `"1. 2.3+ 4"` the source's
`parse_version` succeeds with build 4 (it strips the build part `" 4"` and
the component `" 2"` before the digit tests), whereas the parser described
by the claim — no inner stripping — coerces the build to 0 and rejects the
version part, so the claim's description of the parser is false on this
input. -/
theorem C2_counterexample :
    parse_version "1. 2.3+ 4" = .ok ⟨1, 2, 3, 4⟩ ∧
    claimC2Parse "1. 2.3+ 4" =
      .error "Invalid version format: 1. 2.3+ 4. Expected e.g. 1.16.1+3" ∧
    parse_version "1. 2.3+ 4" ≠ claimC2Parse "1. 2.3+ 4" := by
  refine ⟨by decide, by decide, by decide⟩

/-- Claim C2 (amended): the comparator's parser strips surrounding
whitespace, splits at the first `+` into a version part and a build part,
sets build to the integer value of the whitespace-stripped build part when
that is entirely decimal digits and to 0 otherwise (including when absent),
and requires the version part to split on `.` into exactly 3 components
each entirely decimal digits after whitespace-stripping, failing with the
invalid-format `ValueError` otherwise; in particular
`parse("1.2.3+45") = (1,2,3,45)`, `parse("1.2.3") = (1,2,3,0)`, and
`parse("1.2")`, `parse("1.2.3.4")`, `parse("a.b.c")` all fail. -/
theorem C2_parse_version_characterization :
    (∀ v, parse_version v = claimC2ParseAmended v) ∧
    parse_version "1.2.3+45" = .ok ⟨1, 2, 3, 45⟩ ∧
    parse_version "1.2.3" = .ok ⟨1, 2, 3, 0⟩ ∧
    parse_version "1.2" =
      .error "Invalid version format: 1.2. Expected e.g. 1.16.1+3" ∧
    parse_version "1.2.3.4" =
      .error "Invalid version format: 1.2.3.4. Expected e.g. 1.16.1+3" ∧
    parse_version "a.b.c" =
      .error "Invalid version format: a.b.c. Expected e.g. 1.16.1+3" := by
  refine ⟨fun v => ?_, by decide, by decide, by decide, by decide, by decide⟩
  have key : ∀ (parts : List String) (X : VT) (E : String),
      (if parts.length == 3 && parts.all isDigits then Except.ok X
        else Except.error E) =
      (if parts.length = 3 ∧ ∀ p ∈ parts, isDigits p then Except.ok X
        else Except.error E) := by
    intro parts X E
    have hb : ((parts.length == 3 && parts.all isDigits) = true) ↔
        (parts.length = 3 ∧ ∀ p ∈ parts, isDigits p = true) := by
      simp [List.all_eq_true]
    by_cases h : parts.length = 3 ∧ ∀ p ∈ parts, isDigits p = true
    · rw [if_pos (hb.mpr h), if_pos h]
    · rw [if_neg (fun hbt => h (hb.mp hbt)), if_neg h]
  simp only [parse_version, claimC2ParseAmended]
  cases hc : containsChar (strip v) '+' <;> exact key _ _ _

/-- The strict lexicographic order on the `(major, minor, patch)` prefix,
propositionally. -/
theorem lex3Gt_iff (a b : VT) : lex3Gt a b = true ↔
    b.major < a.major ∨ (a.major = b.major ∧ (b.minor < a.minor ∨
      (a.minor = b.minor ∧ b.patch < a.patch))) := by
  simp [lex3Gt, Nat.blt_eq]

/-- `compareVT` returns `gt` exactly on the strict 4-tuple lexicographic
order. -/
theorem compareVT_gt_iff (a b : VT) : compareVT a b = Ordering.gt ↔
    b.major < a.major ∨ (a.major = b.major ∧ (b.minor < a.minor ∨
      (a.minor = b.minor ∧ (b.patch < a.patch ∨
        (a.patch = b.patch ∧ b.build < a.build))))) := by
  unfold compareVT
  rcases Nat.lt_trichotomy a.major b.major with h1 | h1 | h1
  · simp only [Nat.compare_eq_lt.mpr h1]
    simp; omega
  · simp only [Nat.compare_eq_eq.mpr h1]
    rcases Nat.lt_trichotomy a.minor b.minor with h2 | h2 | h2
    · simp only [Nat.compare_eq_lt.mpr h2]
      simp; omega
    · simp only [Nat.compare_eq_eq.mpr h2]
      rcases Nat.lt_trichotomy a.patch b.patch with h3 | h3 | h3
      · simp only [Nat.compare_eq_lt.mpr h3]
        simp; omega
      · simp only [Nat.compare_eq_eq.mpr h3]
        rcases Nat.lt_trichotomy a.build b.build with h4 | h4 | h4
        · simp only [Nat.compare_eq_lt.mpr h4]
          simp; omega
        · simp only [Nat.compare_eq_eq.mpr h4]
          simp; omega
        · simp only [Nat.compare_eq_gt.mpr h4]
          simp; omega
      · simp only [Nat.compare_eq_gt.mpr h3]
        simp; omega
    · simp only [Nat.compare_eq_gt.mpr h2]
      simp; omega
  · simp only [Nat.compare_eq_gt.mpr h1]
    simp; omega

/-- `update_available` as computed by the handler is propositionally the
strict 4-tuple lexicographic order. -/
theorem updateAvailable_iff (lat cur : VT) : updateAvailable lat cur = true ↔
    cur.major < lat.major ∨ (lat.major = cur.major ∧ (cur.minor < lat.minor ∨
      (lat.minor = cur.minor ∧ (cur.patch < lat.patch ∨
        (lat.patch = cur.patch ∧ cur.build < lat.build))))) := by
  unfold updateAvailable
  split_ifs with hA hB
  · rw [lex3Gt_iff] at hA
    simp only [true_iff]
    omega
  · rw [lex3Gt_iff] at hA hB
    simp only [Bool.false_eq_true, false_iff]
    omega
  · rw [lex3Gt_iff] at hA hB
    simp only [Nat.blt_eq]
    omega

/-- Claim C3: the code's inline comparison agrees everywhere with the
spec's order `compareVT` — lexicographic on `(major, minor, patch)`, then
the numeric build as tiebreaker; a `/check` call whose two strings parse
reports `update_available` true exactly when the latest tuple is greater
in that order; and the spec's examples hold:
`compare(parse("1.2.3+5"), parse("1.2.3+10")) = less` and
`compare(parse("2.0.0"), parse("1.9.9+999")) = greater`. -/
theorem C3_comparison_order :
    (∀ lat cur : VT,
      updateAvailable lat cur = decide (compareVT lat cur = Ordering.gt)) ∧
    (∀ (current : String) (c : Cache) (cur lat : VT),
      truthyStr c.raw_version = true →
      parse_version current = .ok cur →
      parse_version (c.raw_version.getD "") = .ok lat →
      checkEndpoint current c =
        .ok (decide (compareVT lat cur = Ordering.gt)) current
          (c.raw_version.getD "")) ∧
    parse_version "1.2.3+5" = .ok ⟨1, 2, 3, 5⟩ ∧
    parse_version "1.2.3+10" = .ok ⟨1, 2, 3, 10⟩ ∧
    compareVT ⟨1, 2, 3, 5⟩ ⟨1, 2, 3, 10⟩ = Ordering.lt ∧
    parse_version "2.0.0" = .ok ⟨2, 0, 0, 0⟩ ∧
    parse_version "1.9.9+999" = .ok ⟨1, 9, 9, 999⟩ ∧
    compareVT ⟨2, 0, 0, 0⟩ ⟨1, 9, 9, 999⟩ = Ordering.gt := by
  have main : ∀ lat cur : VT,
      updateAvailable lat cur = decide (compareVT lat cur = Ordering.gt) := by
    intro lat cur
    rw [Bool.eq_iff_iff, updateAvailable_iff, decide_eq_true_iff, compareVT_gt_iff]
  refine ⟨main, ?_, by decide, by decide, by decide, by decide, by decide,
    by decide⟩
  intro current c cur lat hraw hcur hlat
  unfold checkEndpoint
  rw [hraw]
  simp only [Bool.not_true, Bool.false_eq_true, if_false, hcur, hlat]
  rw [main lat cur]

/-- Claim C3 witness: a concrete `/check` evaluation through the theorem,
with latest `1.16.1+3` cached and current `1.16.0`. -/
theorem C3_comparison_order_witness :
    checkEndpoint "1.16.0"
      { initCache with raw_version := some "1.16.1+3" } =
      .ok (decide (compareVT ⟨1, 16, 1, 3⟩ ⟨1, 16, 0, 0⟩ = Ordering.gt))
        "1.16.0" "1.16.1+3" :=
  C3_comparison_order.2.1 "1.16.0"
    { initCache with raw_version := some "1.16.1+3" }
    ⟨1, 16, 0, 0⟩ ⟨1, 16, 1, 3⟩ (by decide) (by decide) (by decide)

/-- Claim C1, counterexample: populate the cache by a successful refresh
whose manifest carries `version: 1.2` (accepted by `_parse_pubspec`, which
never checks the 3-component grammar). A subsequent `/check` with the valid
current string `1.0.0` hits the format failure of the cached latest string
inside the handler's `try` block — and that failure IS surfaced to the
`/check` caller as a 400, with no cache error recorded, contradicting the
claim that upstream-sourced format failures are recorded as cache errors
and not surfaced as 400. -/
theorem C1_counterexample :
    (refreshCache 60 initCache 100 false
        (.ok ⟨false, some "E1", some "1.2"⟩)).raw_version = some "1.2" ∧
    (refreshCache 60 initCache 100 false
        (.ok ⟨false, some "E1", some "1.2"⟩)).error = none ∧
    parse_version "1.0.0" = .ok ⟨1, 0, 0, 0⟩ ∧
    checkEndpoint "1.0.0"
        (refreshCache 60 initCache 100 false
          (.ok ⟨false, some "E1", some "1.2"⟩)) =
      .badRequest "Invalid version format: 1.2. Expected e.g. 1.16.1+3" ∧
    (checkEndpoint "1.0.0"
        (refreshCache 60 initCache 100 false
          (.ok ⟨false, some "E1", some "1.2"⟩))).statusCode = 400 := by
  refine ⟨by decide, by decide, by decide, by decide, by decide⟩

/-- Claim C1 (amended): in `/check`, a format failure of the caller-supplied
`current` string is surfaced as a 400 with the failure message; a format
failure of the upstream-sourced cached latest string is — equally — surfaced
as a 400 to the `/check` caller (both parses sit in the same `try` block);
and the `/check` handler never records either failure into the cache: its
cache after the call is exactly what its internal `refresh(force=false)`
left, whatever the response was. -/
theorem C1_check_format_failures :
    (∀ (current : String) (c : Cache) (e : String),
      truthyStr c.raw_version = true →
      parse_version current = .error e →
      checkEndpoint current c = .badRequest e) ∧
    (∀ (current : String) (c : Cache) (cur : VT) (e : String),
      truthyStr c.raw_version = true →
      parse_version current = .ok cur →
      parse_version (c.raw_version.getD "") = .error e →
      checkEndpoint current c = .badRequest e) ∧
    (∀ (ttl now : Nat) (fetched : Except String Fetched) (current : String)
      (c : Cache),
      strEmpty (strip current) = false →
      (checkHandler ttl now fetched (some current) c).2 =
        refreshCache ttl c now false fetched) := by
  refine ⟨?_, ?_, ?_⟩
  · intro current c e hraw he
    unfold checkEndpoint
    rw [hraw]
    simp [he]
  · intro current c cur e hraw hc he
    unfold checkEndpoint
    rw [hraw]
    simp [hc, he]
  · intro ttl now fetched current c hne
    unfold checkHandler
    simp [hne]

/-- Claim C1 witness: both directions at concrete inputs — an invalid
`current` against a well-formed cached latest, and a valid `current`
against the malformed cached latest `1.2`. -/
theorem C1_check_format_failures_witness :
    checkEndpoint "abc" { initCache with raw_version := some "1.0.0" } =
      .badRequest "Invalid version format: abc. Expected e.g. 1.16.1+3" ∧
    checkEndpoint "1.0.0" { initCache with raw_version := some "1.2" } =
      .badRequest "Invalid version format: 1.2. Expected e.g. 1.16.1+3" :=
  ⟨C1_check_format_failures.1 "abc"
      { initCache with raw_version := some "1.0.0" }
      "Invalid version format: abc. Expected e.g. 1.16.1+3"
      (by decide) (by decide),
   C1_check_format_failures.2.1 "1.0.0"
      { initCache with raw_version := some "1.2" } ⟨1, 0, 0, 0⟩
      "Invalid version format: 1.2. Expected e.g. 1.16.1+3"
      (by decide) (by decide) (by decide)⟩

/-- The failure description a `_refresh_cache` call ends up handling, if
any: the fetch's raised message, or the message `_parse_pubspec` raises on
the fetched manifest; `none` when the refresh succeeds. -/
def failureMsg (fetched : Except String Fetched) : Option String :=
  match fetched with
  | .error e => some e
  | .ok f =>
    if f.unchanged then none
    else
      match parsePubspec f.versionField with
      | .error e => some e
      | .ok _ => none

/-- A cache state used by several witnesses: populated with `1.2.3+4` and
already expired at time 100. -/
def staleCache : Cache :=
  { initCache with
      version := some "1.2.3", build := some 4,
      raw_version := some "1.2.3+4", etag := some "E1", expires_at := 50 }

/-- Helper: when the cache-hit guard of `_refresh_cache` holds, the call
returns the cache unchanged. -/
theorem refreshCache_guard_true (ttl : Nat) (c : Cache) (now : Nat)
    (force : Bool) (fetched : Except String Fetched)
    (hg : (!force && Nat.blt now c.expires_at && truthyStr c.version) = true) :
    refreshCache ttl c now force fetched = c := by
  unfold refreshCache
  rw [hg]
  rfl

/-- Helper: a failed refresh reaching the fetch — the `except` branch of
the source. -/
theorem refreshCache_error (ttl : Nat) (c : Cache) (now : Nat) (force : Bool)
    (e : String)
    (hg : (!force && Nat.blt now c.expires_at && truthyStr c.version) = false) :
    refreshCache ttl c now force (.error e) =
      { c with
          error := some e, last_checked_at := some now,
          expires_at := now + Nat.min ttl 30 } := by
  unfold refreshCache
  rw [hg]
  rfl

/-- Helper: the `unchanged` branch of `_refresh_cache`. -/
theorem refreshCache_unchanged (ttl : Nat) (c : Cache) (now : Nat)
    (force : Bool) (et vf : Option String)
    (hg : (!force && Nat.blt now c.expires_at && truthyStr c.version) = false) :
    refreshCache ttl c now force (.ok ⟨true, et, vf⟩) =
      { c with
          source := some "github(etag-cache)", last_checked_at := some now,
          error := none, expires_at := now + ttl } := by
  unfold refreshCache
  rw [hg]
  rfl

/-- Helper: a refresh that reaches the fetch and gets new content reduces
to a match on the manifest parse. -/
theorem refreshCache_content (ttl : Nat) (c : Cache) (now : Nat)
    (force : Bool) (et vf : Option String)
    (hg : (!force && Nat.blt now c.expires_at && truthyStr c.version) = false) :
    refreshCache ttl c now force (.ok ⟨false, et, vf⟩) =
      (match parsePubspec vf with
       | .error e =>
         { c with
             error := some e, last_checked_at := some now,
             expires_at := now + Nat.min ttl 30 }
       | .ok vbr =>
         { c with
             version := some vbr.1, build := vbr.2.1,
             raw_version := some vbr.2.2, etag := et,
             source := some "github", last_checked_at := some now,
             error := none, expires_at := now + ttl }) := by
  unfold refreshCache
  rw [hg]
  rfl

/-- Helper: the branch of `_refresh_cache` where the fetch succeeded with
new content but `_parse_pubspec` raised. -/
theorem refreshCache_parse_error (ttl : Nat) (c : Cache) (now : Nat)
    (force : Bool) (et vf : Option String) (e : String)
    (hg : (!force && Nat.blt now c.expires_at && truthyStr c.version) = false)
    (hp : parsePubspec vf = .error e) :
    refreshCache ttl c now force (.ok ⟨false, et, vf⟩) =
      { c with
          error := some e, last_checked_at := some now,
          expires_at := now + Nat.min ttl 30 } := by
  rw [refreshCache_content ttl c now force et vf hg, hp]

/-- Helper: the successful new-content branch of `_refresh_cache`. -/
theorem refreshCache_parsed (ttl : Nat) (c : Cache) (now : Nat)
    (force : Bool) (et vf : Option String) (v : String) (b : Option Nat)
    (r : String)
    (hg : (!force && Nat.blt now c.expires_at && truthyStr c.version) = false)
    (hp : parsePubspec vf = .ok (v, b, r)) :
    refreshCache ttl c now force (.ok ⟨false, et, vf⟩) =
      { c with
          version := some v, build := b, raw_version := some r,
          etag := et, source := some "github",
          last_checked_at := some now, error := none,
          expires_at := now + ttl } := by
  rw [refreshCache_content ttl c now force et vf hg, hp]

/-- Helper: `refreshFetches = true` means the cache-hit guard is false. -/
theorem guard_false_of_refreshFetches (c : Cache) (now : Nat) (force : Bool)
    (h : refreshFetches c now force = true) :
    (!force && Nat.blt now c.expires_at && truthyStr c.version) = false := by
  unfold refreshFetches at h
  cases hb : (!force && Nat.blt now c.expires_at && truthyStr c.version)
  · rfl
  · rw [hb] at h
    exact absurd h (by decide)

/-- Claim C4: whenever a refresh call that reaches the fetch fails — the
fetch raised (configuration, upstream status, payload shape) or the
manifest failed to parse — the refresh stores that failure description into
`error`, sets `last_checked_at` to the current time, sets `expires_at` to
`now + min(TTL, 30)`, and leaves the cached `version`, `build` and
`raw_version` unchanged. -/
theorem C4_refresh_failure_frame :
    ∀ (ttl : Nat) (c : Cache) (now : Nat) (force : Bool)
      (fetched : Except String Fetched) (msg : String),
      refreshFetches c now force = true →
      failureMsg fetched = some msg →
      (refreshCache ttl c now force fetched).error = some msg ∧
      (refreshCache ttl c now force fetched).last_checked_at = some now ∧
      (refreshCache ttl c now force fetched).expires_at =
        now + Nat.min ttl 30 ∧
      (refreshCache ttl c now force fetched).version = c.version ∧
      (refreshCache ttl c now force fetched).build = c.build ∧
      (refreshCache ttl c now force fetched).raw_version = c.raw_version := by
  intro ttl c now force fetched msg hf hmsg
  have hg := guard_false_of_refreshFetches c now force hf
  cases fetched with
  | error e =>
    simp only [failureMsg, Option.some.injEq] at hmsg
    subst hmsg
    rw [refreshCache_error ttl c now force e hg]
    exact ⟨rfl, rfl, rfl, rfl, rfl, rfl⟩
  | ok f =>
    obtain ⟨u, fet, fvf⟩ := f
    cases u with
    | true => simp [failureMsg] at hmsg
    | false =>
      cases hp : parsePubspec fvf with
      | error e =>
        have hme : e = msg := by simpa [failureMsg, hp] using hmsg
        subst hme
        rw [refreshCache_parse_error ttl c now force fet fvf e hg hp]
        exact ⟨rfl, rfl, rfl, rfl, rfl, rfl⟩
      | ok vbr => simp [failureMsg, hp] at hmsg

/-- Claim C4 witness: a failed fetch (upstream error message) against a
populated, expired cache keeps the stale version and records the error. -/
theorem C4_refresh_failure_frame_witness :
    (refreshCache 60 staleCache 100 false
        (.error "GitHub API error: 500 - boom")).error =
      some "GitHub API error: 500 - boom" ∧
    (refreshCache 60 staleCache 100 false
        (.error "GitHub API error: 500 - boom")).last_checked_at = some 100 ∧
    (refreshCache 60 staleCache 100 false
        (.error "GitHub API error: 500 - boom")).expires_at =
      100 + Nat.min 60 30 ∧
    (refreshCache 60 staleCache 100 false
        (.error "GitHub API error: 500 - boom")).version =
      staleCache.version ∧
    (refreshCache 60 staleCache 100 false
        (.error "GitHub API error: 500 - boom")).build = staleCache.build ∧
    (refreshCache 60 staleCache 100 false
        (.error "GitHub API error: 500 - boom")).raw_version =
      staleCache.raw_version :=
  C4_refresh_failure_frame 60 staleCache 100 false
    (.error "GitHub API error: 500 - boom")
    "GitHub API error: 500 - boom" (by decide) (by decide)

/-- Claim C5: a `refresh(force=false)` call made while the current time is
before `expiresAt` and a version is cached returns immediately: the cache
is not mutated (whatever the network would have answered) and the fetch is
not reached, so a second refresh within one TTL window issues no second
upstream call. -/
theorem C5_cache_hit_no_fetch :
    ∀ (ttl : Nat) (c : Cache) (now : Nat) (fetched : Except String Fetched),
      now < c.expires_at →
      truthyStr c.version = true →
      refreshCache ttl c now false fetched = c ∧
      refreshFetches c now false = false := by
  intro ttl c now fetched hlt hv
  have hg : (!(false : Bool) && Nat.blt now c.expires_at && truthyStr c.version)
      = true := by
    simp [Nat.blt_eq, hlt, hv]
  refine ⟨refreshCache_guard_true ttl c now false fetched hg, ?_⟩
  unfold refreshFetches
  rw [hg]
  rfl

/-- Claim C5 witness: a populated cache with `expiresAt = 160` at time 120
is returned untouched and the fetch is skipped, whatever the network would
have said. -/
theorem C5_cache_hit_no_fetch_witness :
    refreshCache 60 { staleCache with expires_at := 160 } 120 false
        (.error "network down") =
      { staleCache with expires_at := 160 } ∧
    refreshFetches { staleCache with expires_at := 160 } 120 false = false :=
  C5_cache_hit_no_fetch 60 { staleCache with expires_at := 160 } 120
    (.error "network down") (by decide) (by decide)

/-- Claim C6: on an unchanged fetch result (upstream 304 against the cached
etag), the refresh sets `source` to the etag-cache variant
`github(etag-cache)`, sets `last_checked_at` to the current time, extends
`expires_at` to `now + TTL`, clears `error`, and leaves `version`, `build`,
`raw_version` and `etag` unchanged. -/
theorem C6_refresh_unchanged_frame :
    ∀ (ttl : Nat) (c : Cache) (now : Nat) (force : Bool) (et : Option String),
      refreshFetches c now force = true →
      (refreshCache ttl c now force (.ok ⟨true, et, none⟩)).source =
        some "github(etag-cache)" ∧
      (refreshCache ttl c now force (.ok ⟨true, et, none⟩)).last_checked_at =
        some now ∧
      (refreshCache ttl c now force (.ok ⟨true, et, none⟩)).expires_at =
        now + ttl ∧
      (refreshCache ttl c now force (.ok ⟨true, et, none⟩)).error = none ∧
      (refreshCache ttl c now force (.ok ⟨true, et, none⟩)).version =
        c.version ∧
      (refreshCache ttl c now force (.ok ⟨true, et, none⟩)).build = c.build ∧
      (refreshCache ttl c now force (.ok ⟨true, et, none⟩)).raw_version =
        c.raw_version ∧
      (refreshCache ttl c now force (.ok ⟨true, et, none⟩)).etag = c.etag := by
  intro ttl c now force et hf
  have hg := guard_false_of_refreshFetches c now force hf
  rw [refreshCache_unchanged ttl c now force et none hg]
  exact ⟨rfl, rfl, rfl, rfl, rfl, rfl, rfl, rfl⟩

/-- Claim C6 witness: a 304-style unchanged result against an expired,
populated cache refreshes the metadata and keeps the data fields. -/
theorem C6_refresh_unchanged_frame_witness :
    (refreshCache 60 staleCache 100 false
        (.ok ⟨true, some "E1", none⟩)).source = some "github(etag-cache)" ∧
    (refreshCache 60 staleCache 100 false
        (.ok ⟨true, some "E1", none⟩)).expires_at = 160 ∧
    (refreshCache 60 staleCache 100 false
        (.ok ⟨true, some "E1", none⟩)).etag = some "E1" := by
  have h := C6_refresh_unchanged_frame 60 staleCache 100 false (some "E1")
    (by decide)
  exact ⟨h.1, h.2.2.1, h.2.2.2.2.2.2.2.trans (by decide)⟩

/-- Claim C7, counterexample: a successful refresh of a manifest whose
version field is `"+45"` stores `version = some ""` (the part before `+`,
which `_parse_pubspec` never validates). A version is then cached — the
field is set, by a fetch that succeeded — yet `/version` still answers 502,
because the handler tests Python truthiness and `""` is falsy. This
contradicts the claim that 502 happens only before any successful fetch
and that any cached version yields a 200. -/
theorem C7_counterexample :
    (refreshCache 60 initCache 100 false
        (.ok ⟨false, some "E1", some "+45"⟩)).version = some "" ∧
    ((refreshCache 60 initCache 100 false
        (.ok ⟨false, some "E1", some "+45"⟩)).version).isSome = true ∧
    (refreshCache 60 initCache 100 false
        (.ok ⟨false, some "E1", some "+45"⟩)).error = none ∧
    (refreshCache 60 initCache 100 false
        (.ok ⟨false, some "E1", some "+45"⟩)).build = some 45 ∧
    (versionEndpoint 60 (refreshCache 60 initCache 100 false
        (.ok ⟨false, some "E1", some "+45"⟩))).statusCode = 502 := by
  refine ⟨by decide, by decide, by decide, by decide, by decide⟩

/-- Claim C7 (amended): `/version` answers 502 with `ok:false` if and only
if the cached version is absent or the empty string (Python truthiness);
whenever a nonempty version is cached it answers 200 with `ok:true` and
the cached `version`, `build`, `raw`, `source`, `last_checked_at`,
`cache_ttl_seconds` and `error` fields — in particular even when the most
recent refresh failed and `error` is set. -/
theorem C7_version_endpoint :
    ∀ (ttl : Nat) (c : Cache),
      ((versionEndpoint ttl c).statusCode = 502 ↔
        truthyStr c.version = false) ∧
      (truthyStr c.version = false →
        versionEndpoint ttl c =
          .err (errorOrUnknown c.error) c.last_checked_at) ∧
      (∀ v, c.version = some v → strEmpty v = false →
        versionEndpoint ttl c =
          .ok v c.build c.raw_version c.source c.last_checked_at ttl
            c.error) := by
  intro ttl c
  refine ⟨?_, ?_, ?_⟩
  · cases ht : truthyStr c.version <;>
      simp [versionEndpoint, ht, VersionResp.statusCode]
  · intro ht
    simp [versionEndpoint, ht]
  · intro v hv hne
    have htv : truthyStr (some v) = true := by simp [truthyStr, hne]
    simp [versionEndpoint, hv, htv]

/-- Claim C7 witness: the stale populated cache answers 200 with its
fields even though it is expired, and the cold-start cache answers 502. -/
theorem C7_version_endpoint_witness :
    versionEndpoint 60 staleCache =
      .ok "1.2.3" (some 4) (some "1.2.3+4") none none 60 none ∧
    (versionEndpoint 60 initCache).statusCode = 502 :=
  ⟨(C7_version_endpoint 60 staleCache).2.2 "1.2.3" (by decide) (by decide),
   (C7_version_endpoint 60 initCache).1.mpr (by decide)⟩

/-- Claim C8: with the GitHub location configured, an upstream 304 yields
the unchanged result only when a version is already cached; on a cold
cache the same 304 falls through to the non-200 branch and the fetch
fails with the upstream error carrying status 304. -/
theorem C8_fetch_304_cold_cache :
    ∀ (owner repo path : String) (cv et : Option String) (r : HttpResponse),
      strEmpty owner = false → strEmpty repo = false → strEmpty path = false →
      r.status = 304 →
      (truthyStr cv = true →
        fetchPubspec owner repo path cv et r = .ok ⟨true, et, none⟩) ∧
      (truthyStr cv = false →
        fetchPubspec owner repo path cv et r =
          .error ("GitHub API error: 304 - " ++ takeChars 300 r.text)) := by
  intro owner repo path cv et r ho hr hp hs
  constructor
  · intro hcv
    simp [fetchPubspec, ho, hr, hp, hs, hcv]
  · intro hcv
    have h1 : ("GitHub API error: " ++ toString (304 : Nat) ++ " - ")
        = "GitHub API error: 304 - " := by decide
    simp [fetchPubspec, ho, hr, hp, hs, hcv, h1]

/-- Claim C8 witness: a 304 response with a cached version gives the
unchanged result; the same response on a cold cache gives the upstream
error naming status 304. -/
theorem C8_fetch_304_cold_cache_witness :
    fetchPubspec "o" "r" "p" (some "1.2.3") (some "E1")
        ⟨304, none, none, none, "irrelevant"⟩ =
      .ok ⟨true, some "E1", none⟩ ∧
    fetchPubspec "o" "r" "p" none (some "E1")
        ⟨304, none, none, none, "irrelevant"⟩ =
      .error ("GitHub API error: 304 - " ++ takeChars 300 "irrelevant") :=
  ⟨(C8_fetch_304_cold_cache "o" "r" "p" (some "1.2.3") (some "E1")
      ⟨304, none, none, none, "irrelevant"⟩
      (by decide) (by decide) (by decide) (by decide)).1 (by decide),
   (C8_fetch_304_cold_cache "o" "r" "p" none (some "E1")
      ⟨304, none, none, none, "irrelevant"⟩
      (by decide) (by decide) (by decide) (by decide)).2 (by decide)⟩

/-- The build value computed by the comparator's parser on its way to the
tuple: the stripped part after the first `+` when it is all digits, else
0 (also when `+` is absent). -/
def buildOf (v0 : String) : Nat :=
  let v := strip v0
  if containsChar v '+' then
    let bp := strip (breakFirst '+' v).2
    if isDigits bp then digitsToNat bp else 0
  else 0

/-- Helper: every successful `parse_version` carries the build `buildOf`
computes. -/
theorem parse_version_build (v0 : String) (t : VT)
    (h : parse_version v0 = .ok t) : t.build = buildOf v0 := by
  unfold parse_version at h
  unfold buildOf
  cases hc : containsChar (strip v0) '+'
  · simp only [hc, Bool.false_eq_true, if_false] at h ⊢
    split at h
    · injection h with h2
      rw [← h2]
    · exact Except.noConfusion h
  · simp only [hc, if_true] at h ⊢
    split at h
    · injection h with h2
      rw [← h2]
    · exact Except.noConfusion h

/-- The condition of claim C9 on a manifest version string: its build part
is missing (no `+` in the stripped string) or, after stripping, not
entirely decimal digits. -/
def buildPartAbsentOrNonNumeric (raw : String) : Bool :=
  let v := strip raw
  if containsChar v '+' then !isDigits (strip (breakFirst '+' v).2) else true

/-- Claim C9: the refresh-path manifest parser and the comparator's parser
disagree on build tags. `_parse_pubspec` accepts every version string that
is nonempty after stripping (no 3-component check), so the cache can hold
a `rawVersion` the comparator rejects (`"1.2"` concretely, stored by a
successful refresh and reported with `build: null` by `/version`); and on
every string whose build part is missing or non-numeric, `_parse_pubspec`
stores `build = none` while the comparator's parse — when it succeeds —
yields build 0. -/
theorem C9_pubspec_vs_comparator :
    (∀ raw : String, strEmpty (strip raw) = false →
      ∃ v b r, parsePubspec (some raw) = .ok (v, b, r)) ∧
    (∀ raw : String, strEmpty (strip raw) = false →
      buildPartAbsentOrNonNumeric raw = true →
      (∃ v, parsePubspec (some raw) = .ok (v, none, strip raw)) ∧
      (∀ t, parse_version raw = .ok t → t.build = 0)) ∧
    parsePubspec (some "1.2") = .ok ("1.2", none, "1.2") ∧
    parse_version "1.2" =
      .error "Invalid version format: 1.2. Expected e.g. 1.16.1+3" ∧
    (refreshCache 60 initCache 100 false
        (.ok ⟨false, some "E1", some "1.2"⟩)).raw_version = some "1.2" ∧
    (refreshCache 60 initCache 100 false
        (.ok ⟨false, some "E1", some "1.2"⟩)).build = none ∧
    versionEndpoint 60
        (refreshCache 60 initCache 100 false
          (.ok ⟨false, some "E1", some "1.2"⟩)) =
      .ok "1.2" none (some "1.2") (some "github") (some 100) 60 none := by
  refine ⟨?_, ?_, by decide, by decide, by decide, by decide, by decide⟩
  · intro raw hne
    cases hc : containsChar (strip raw) '+'
    · exact ⟨strip raw, none, strip raw, by simp [parsePubspec, hne, hc]⟩
    · refine ⟨strip (breakFirst '+' (strip raw)).1,
        if isDigits (strip (breakFirst '+' (strip raw)).2) then
          some (digitsToNat (strip (breakFirst '+' (strip raw)).2)) else none,
        strip raw, ?_⟩
      simp [parsePubspec, hne, hc]
  · intro raw hne hbp
    simp only [buildPartAbsentOrNonNumeric] at hbp
    constructor
    · cases hc : containsChar (strip raw) '+'
      · exact ⟨strip raw, by simp [parsePubspec, hne, hc]⟩
      · rw [hc, if_pos rfl] at hbp
        have hbd : isDigits (strip (breakFirst '+' (strip raw)).2) = false := by
          simpa using hbp
        exact ⟨strip (breakFirst '+' (strip raw)).1,
          by simp [parsePubspec, hne, hc, hbd]⟩
    · intro t ht
      rw [parse_version_build raw t ht]
      unfold buildOf
      cases hc : containsChar (strip raw) '+'
      · simp [hc]
      · rw [hc, if_pos rfl] at hbp
        have hbd : isDigits (strip (breakFirst '+' (strip raw)).2) = false := by
          simpa using hbp
        simp [hc, hbd]

/-- Claim C9 witness: `1.2.3+abc` — nonempty, build part non-numeric —
is accepted by the manifest parser with an absent build, while the
comparator parses the same string with build 0. -/
theorem C9_pubspec_vs_comparator_witness :
    (∃ v, parsePubspec (some "1.2.3+abc") =
      .ok (v, none, strip "1.2.3+abc")) ∧
    (∀ t, parse_version "1.2.3+abc" = .ok t → t.build = 0) :=
  C9_pubspec_vs_comparator.2.1 "1.2.3+abc" (by decide) (by decide)

end LunalistUpdate
